import Mathlib

/-!
Verification development for the data-quality/validation scoring model of the
repository: a shallow embedding of `tools/data_pipeline/data_quality_monitor.py`
(class `DataQualityMonitor`) and of
`tools/compliance_automation/data_governance_checker.py`
(class `DataGovernanceChecker`), together with theorems settling the frozen
claims about them.

Modelling conventions:
* a pandas `DataFrame` is a column list plus a list of rows of cells;
* a cell is null (`NaN`/`None`), a number (modelled as `ℚ`, standing for the
  Python floats; exact rational arithmetic stands in for float arithmetic), or
  a string;
* `df[c]` is looked up by the first matching column label, and a missing column
  yields the empty cell list (the code always guards accesses by
  `if c in df.columns`);
* pandas comparisons against `NaN` are `False`, `.isnull()` is true exactly on
  nulls, and `.duplicated()` marks every repetition of an earlier full row;
* Python `f"{n} ..."` formatting of a count renders the decimal digits of `n`,
  embedded through `Nat.digits`.
-/

/-- A cell of a tabular dataset: null (`NaN`), numeric, or string. -/
inductive Value where
  | null : Value
  | num (q : ℚ) : Value
  | str (s : String) : Value
deriving DecidableEq

/-- `pd.isnull` on one cell. -/
def Value.isNull : Value → Bool
  | .null => true
  | _ => false

/-- A pandas `DataFrame`: ordered column labels and rows of cells. -/
structure DataFrame where
  columns : List String
  rows : List (List Value)
deriving DecidableEq

/-- `len(df)`. -/
def DataFrame.nrows (df : DataFrame) : Nat := df.rows.length

/-- Position of the first column with the given label. -/
def DataFrame.colIdx (df : DataFrame) (c : String) : Option Nat :=
  df.columns.findIdx? (fun x => x == c)

/-- `c in df.columns`. -/
def DataFrame.hasCol (df : DataFrame) (c : String) : Bool :=
  (df.colIdx c).isSome

/-- `df[c]`: the cells of column `c`, or `[]` when the label is absent. -/
def DataFrame.col (df : DataFrame) (c : String) : List Value :=
  match df.colIdx c with
  | some i => df.rows.map (fun r => r.getD i Value.null)
  | none => []

/-! Decimal rendering and re-parsing of counts, embedding the Python
`f"{count} ..."` message formatting and the `int(issue.split()[0])` /
`str.isdigit()` re-parsing done by the monitor. -/

/-- Decimal digit characters of `n`, most significant first; `str(n)` in
Python for a natural number. -/
def natChars (n : Nat) : List Char :=
  if n = 0 then [ '0' ] else ((Nat.digits 10 n).map Nat.digitChar).reverse

/-- `str(n)` as a `String`. -/
def natStr (n : Nat) : String := String.mk (natChars n)

/-- Numeric value of a digit character. -/
def digitVal (c : Char) : Nat := c.toNat - 48

/-- `int(s)` on a string of decimal digits. -/
def digitsToNat (cs : List Char) : Nat := cs.foldl (fun a c => a * 10 + digitVal c) 0

/-- `s.split()[0]`: the first whitespace-delimited token of a message (all
generated messages start with a digit, not a space). -/
def firstTok (s : String) : List Char := s.data.takeWhile (fun c => !(c == ' '))

/-- `str.isdigit`: nonempty and all digit characters. -/
def isDigitTok (cs : List Char) : Bool := !cs.isEmpty && cs.all Char.isDigit

/-- Count parsed back out of a generated message, as in
`int(issue.split()[0]) if issue.split()[0].isdigit()`, else 0 (skipped). -/
def parseIssue (s : String) : Nat :=
  if isDigitTok (firstTok s) then digitsToNat (firstTok s) else 0

/-- `sum(int(issue.split()[0]) for issue in issues if ...isdigit())`. -/
def parsedCount (issues : List String) : Nat := (issues.map parseIssue).sum

/-! The quality monitor `DataQualityMonitor`. -/

/-- The per-dimension pass thresholds held in `self.thresholds`. -/
structure Thresholds where
  completeness : ℚ
  accuracy : ℚ
  consistency : ℚ
  validity : ℚ
deriving DecidableEq

/-- The `__init__` defaults: 0.95, 0.90, 0.95, 0.98. -/
def defaultThresholds : Thresholds := ⟨95/100, 90/100, 95/100, 98/100⟩

/-- `len(df) * len(df.columns)`. -/
def totalCells (df : DataFrame) : Nat := df.nrows * df.columns.length

/-- `df.isnull().sum().sum()`: null cells summed column by column. -/
def nullCells (df : DataFrame) : Nat :=
  (df.columns.map (fun c => (df.col c).countP Value.isNull)).sum

/-- `1 - null_cells/total_cells if total_cells > 0 else 1`. -/
def completeness_score (df : DataFrame) : ℚ :=
  if 0 < totalCells df then 1 - (nullCells df : ℚ) / (totalCells df : ℚ) else 1

/-- The `critical_fields` sub-score of `_calculate_completeness`
(`critical_fields = ['policy_id'] if 'policy_id' in df.columns else []`,
and `critical_total = len(df) * len(critical_fields)`). -/
def critical_completeness (df : DataFrame) : ℚ :=
  if df.hasCol ("policy_id") then
    (if 0 < df.nrows then
      1 - ((df.col ("policy_id")).countP Value.isNull : ℚ) / (df.nrows : ℚ)
    else 1)
  else 1

/-- The dictionary returned by `_calculate_completeness`. -/
structure CompletenessResult where
  score : ℚ
  null_count : Nat
  total_cells : Nat
  critical_fields_completeness : ℚ
  status : String
deriving DecidableEq

/-- `_calculate_completeness`. -/
def calculate_completeness (thr : Thresholds) (df : DataFrame) : CompletenessResult :=
  { score := completeness_score df
    null_count := nullCells df
    total_cells := totalCells df
    critical_fields_completeness := critical_completeness df
    status := if completeness_score df ≥ thr.completeness then ("pass") else ("fail") }

/-- `(df['annual_premium'] < 0).sum()` (comparisons with `NaN` or a string
cell are `False`). -/
def negPremiums (df : DataFrame) : Nat :=
  (df.col ("annual_premium")).countP
    (fun v => match v with | .num q => decide (q < 0) | _ => false)

/-- `(df['annual_premium'] > 1000000).sum()`. -/
def overMillion (df : DataFrame) : Nat :=
  (df.col ("annual_premium")).countP
    (fun v => match v with | .num q => decide (1000000 < q) | _ => false)

/-- The `accuracy_issues` message list built by `_calculate_accuracy`. -/
def accuracy_issues (df : DataFrame) : List String :=
  (if df.hasCol ("annual_premium") && decide (0 < negPremiums df) then
    [natStr (negPremiums df) ++ (" negative premium values")]
  else []) ++
  (if df.hasCol ("annual_premium") && decide (0 < overMillion df) then
    [natStr (overMillion df) ++ (" premiums over $1M")]
  else [])

/-- `1 - issue_count/total_records if total_records > 0 else 1`, with
`issue_count` re-parsed out of the messages. -/
def accuracy_score (df : DataFrame) : ℚ :=
  if 0 < df.nrows then 1 - (parsedCount (accuracy_issues df) : ℚ) / (df.nrows : ℚ) else 1

/-- The dictionary returned by each of `_calculate_accuracy`,
`_calculate_consistency` and `_calculate_validity`. -/
structure DimensionResult where
  score : ℚ
  issues : List String
  issue_count : Nat
  status : String
deriving DecidableEq

/-- `_calculate_accuracy`. -/
def calculate_accuracy (thr : Thresholds) (df : DataFrame) : DimensionResult :=
  { score := accuracy_score df
    issues := accuracy_issues df
    issue_count := parsedCount (accuracy_issues df)
    status := if accuracy_score df ≥ thr.accuracy then ("pass") else ("fail") }

/-- `df.duplicated().sum()` with an accumulator of already-seen rows: a row
counts when an equal row occurred earlier (pandas marks repetitions beyond
the first occurrence; `NaN` cells compare equal here, as in pandas). -/
def dupCountAux : List (List Value) → List (List Value) → Nat
  | _, [] => 0
  | seen, r :: rs => (if r ∈ seen then 1 else 0) + dupCountAux (r :: seen) rs

/-- `df.duplicated().sum()`. -/
def dupCount (df : DataFrame) : Nat := dupCountAux [] df.rows

/-- `((df['status'] == 'Active') & (df['lapse_date'].notna())).sum()`. -/
def inconsistentCount (df : DataFrame) : Nat :=
  ((df.col ("status")).zip (df.col ("lapse_date"))).countP
    (fun p => decide (p.1 = Value.str ("Active")) && !(p.2.isNull))

/-- The `consistency_issues` message list built by `_calculate_consistency`. -/
def consistency_issues (df : DataFrame) : List String :=
  (if decide (0 < dupCount df) then
    [natStr (dupCount df) ++ (" duplicate records")]
  else []) ++
  (if df.hasCol ("status") && df.hasCol ("lapse_date") && decide (0 < inconsistentCount df) then
    [natStr (inconsistentCount df) ++ (" active policies with lapse dates")]
  else [])

/-- Consistency ratio of `_calculate_consistency`. -/
def consistency_score (df : DataFrame) : ℚ :=
  if 0 < df.nrows then 1 - (parsedCount (consistency_issues df) : ℚ) / (df.nrows : ℚ) else 1

/-- `_calculate_consistency`. -/
def calculate_consistency (thr : Thresholds) (df : DataFrame) : DimensionResult :=
  { score := consistency_score df
    issues := consistency_issues df
    issue_count := parsedCount (consistency_issues df)
    status := if consistency_score df ≥ thr.consistency then ("pass") else ("fail") }

/-- A string accepted by `pd.to_numeric` (model: optional sign, digits,
optional fractional part). -/
def numericLiteral (s : String) : Bool :=
  let cs := match s.data with
    | '-' :: rest => rest
    | cs => cs
  let intPart := cs.takeWhile Char.isDigit
  let rest := cs.dropWhile Char.isDigit
  match rest with
  | [] => !intPart.isEmpty
  | '.' :: frac => !intPart.isEmpty && !frac.isEmpty && frac.all Char.isDigit
  | _ => false

/-- One cell of `pd.to_numeric(col, errors='coerce').isnull()`: a null cell
stays `NaN`, a numeric cell coerces, a string cell coerces exactly when it is
a numeric literal. -/
def toNumericFails (v : Value) : Bool :=
  match v with
  | .null => true
  | .num _ => false
  | .str s => !numericLiteral s

/-- `df['policy_id'].isnull().sum()`. -/
def policyIdNulls (df : DataFrame) : Nat := (df.col ("policy_id")).countP Value.isNull

/-- `pd.to_numeric(df['annual_premium'], errors='coerce').isnull().sum()`. -/
def nonNumericPremiums (df : DataFrame) : Nat :=
  (df.col ("annual_premium")).countP toNumericFails

/-- The `validity_issues` message list built by `_calculate_validity`
(`required_fields = ['policy_id'] if 'policy_id' in df.columns else []`). -/
def validity_issues (df : DataFrame) : List String :=
  (if df.hasCol ("policy_id") && decide (0 < policyIdNulls df) then
    [natStr (policyIdNulls df) ++ (" null values in policy_id")]
  else []) ++
  (if df.hasCol ("annual_premium") && decide (0 < nonNumericPremiums df) then
    [natStr (nonNumericPremiums df) ++ (" non-numeric premium values")]
  else [])

/-- Validity ratio of `_calculate_validity`. -/
def validity_score (df : DataFrame) : ℚ :=
  if 0 < df.nrows then 1 - (parsedCount (validity_issues df) : ℚ) / (df.nrows : ℚ) else 1

/-- `_calculate_validity`. -/
def calculate_validity (thr : Thresholds) (df : DataFrame) : DimensionResult :=
  { score := validity_score df
    issues := validity_issues df
    issue_count := parsedCount (validity_issues df)
    status := if validity_score df ≥ thr.validity then ("pass") else ("fail") }

/-- The equal-weighted overall score of `check_data_quality`
(`0.25` is exact in binary floating point, so `ℚ` matches the code). -/
def overall_score (df : DataFrame) : ℚ :=
  completeness_score df * (25/100) + accuracy_score df * (25/100) +
    consistency_score df * (25/100) + validity_score df * (25/100)

/-- The `quality_status` bucketing of `check_data_quality`. -/
def qualityStatus (s : ℚ) : String :=
  if s ≥ 95/100 then ("excellent")
  else if s ≥ 85/100 then ("good")
  else if s ≥ 75/100 then ("fair")
  else ("poor")

/-- Order of the status buckets, `poor < fair < good < excellent`. -/
def statusRank (st : String) : Nat :=
  if st == ("excellent") then 3
  else if st == ("good") then 2
  else if st == ("fair") then 1
  else 0

/-- The quality report dictionary produced by `check_data_quality`. -/
structure QualityReport where
  timestamp : String
  total_records : Nat
  completeness : CompletenessResult
  accuracy : DimensionResult
  consistency : DimensionResult
  validity : DimensionResult
  overall_quality_score : ℚ
  quality_status : String
deriving DecidableEq

/-- `check_data_quality` on an in-memory dataset (`df.copy()` branch): the
wall-clock `datetime.now().isoformat()` value is made an explicit `ts`
argument. -/
def check_data_quality (thr : Thresholds) (ts : String) (df : DataFrame) : QualityReport :=
  { timestamp := ts
    total_records := df.nrows
    completeness := calculate_completeness thr df
    accuracy := calculate_accuracy thr df
    consistency := calculate_consistency thr df
    validity := calculate_validity thr df
    overall_quality_score := overall_score df
    quality_status := qualityStatus (overall_score df) }

/-- The mutable state of a `DataQualityMonitor` instance: `self.quality_metrics`
and `self.thresholds`. -/
structure MonitorState where
  quality_metrics : List QualityReport
  thresholds : Thresholds
deriving DecidableEq

/-- `DataQualityMonitor.__init__`. -/
def monitorInit : MonitorState := ⟨[], defaultThresholds⟩

/-- A method call `self.check_data_quality(df=df)` as a state transformer: the
method reads `self.thresholds` and writes no attribute, so the state component
of the result is the input state. -/
def check_data_quality_call (st : MonitorState) (ts : String) (df : DataFrame) :
    QualityReport × MonitorState :=
  (check_data_quality st.thresholds ts df, st)

/-- `_calculate_trend`, acting on the `quality_score` sequence extracted from
the `trends` dictionaries (`np.mean` is sum over length; the float literals
`1.05` and `0.95` are read as the rationals they denote). -/
def calculate_trend (trends : List ℚ) : String :=
  if trends.length < 2 then ("insufficient_data")
  else
    let recent := trends.drop (trends.length - 5)
    let earlier := trends.take 5
    if decide (0 < recent.length) && decide (0 < earlier.length) then
      let recent_avg := recent.sum / (recent.length : ℚ)
      let earlier_avg := earlier.sum / (earlier.length : ℚ)
      if recent_avg > earlier_avg * (105/100) then ("improving")
      else if recent_avg < earlier_avg * (95/100) then ("declining")
      else ("stable")
    else ("stable")

/-! The governance checker `DataGovernanceChecker`. -/

/-- `self.validation_rules`: required fields, expected types, value ranges. -/
structure GovRules where
  required_fields : List String
  data_types : List (String × String)
  value_ranges : List (String × Option ℚ × Option ℚ)
deriving DecidableEq

/-- The rules fixed in `DataGovernanceChecker.__init__`. -/
def defaultRules : GovRules :=
  { required_fields := [("policy_id"), ("policy_type"), ("issue_date")]
    data_types := [(("policy_id"), ("string")), (("annual_premium"), ("numeric")),
      (("issue_date"), ("date"))]
    value_ranges := [(("annual_premium"), some 0, some 1000000),
      (("age_at_issue"), some 18, some 100)] }

/-- The `required_fields` check result. -/
structure RequiredFieldsCheck where
  status : String
  missing_fields : List String
deriving DecidableEq

/-- The `required_fields` check of `validate_data_quality`. -/
def requiredFieldsCheck (rules : GovRules) (df : DataFrame) : RequiredFieldsCheck :=
  let missing := rules.required_fields.filter (fun f => !(df.hasCol f))
  { status := if missing.length = 0 then ("pass") else ("fail")
    missing_fields := missing }

/-- `pd.api.types.is_numeric_dtype(df[field])` (model: the column holds no
string cell; an all-null column is a float `NaN` column). -/
def isNumericDtype (col : List Value) : Bool :=
  col.all (fun v => match v with | .str _ => false | _ => true)

/-- Rendering of `df[field].dtype` in the issue messages (model). -/
def dtypeName (col : List Value) : String :=
  if isNumericDtype col then ("float64") else ("object")

/-- A string `pd.to_datetime` accepts (model: an ISO `YYYY-MM-DD` literal). -/
def dateLiteral (s : String) : Bool :=
  match s.data with
  | [y1, y2, y3, y4, '-', m1, m2, '-', d1, d2] =>
    [y1, y2, y3, y4, m1, m2, d1, d2].all Char.isDigit
  | _ => false

/-- `pd.to_datetime(df[field])` succeeding on the whole column (model: every
cell is non-string or a date literal). -/
def colParsesAsDates (col : List Value) : Bool :=
  col.all (fun v => match v with | .str s => dateLiteral s | _ => true)

/-- A check result carrying a message list. -/
structure IssuesCheck where
  status : String
  issues : List String
deriving DecidableEq

/-- Messages contributed by one `(field, expected_type)` entry of the
`data_types` loop; an expected type other than `numeric`/`date` (i.e.
`string`) has no branch and never produces an issue. -/
def dataTypeIssues (df : DataFrame) (p : String × String) : List String :=
  if df.hasCol p.1 then
    (if p.2 == ("numeric") then
      (if !(isNumericDtype (df.col p.1)) then
        [p.1 ++ (": expected numeric, got ") ++ dtypeName (df.col p.1)]
      else [])
    else if p.2 == ("date") then
      (if !(colParsesAsDates (df.col p.1)) then
        [p.1 ++ (": expected date, got ") ++ dtypeName (df.col p.1)]
      else [])
    else [])
  else []

/-- The `data_types` check of `validate_data_quality`. -/
def dataTypesCheck (rules : GovRules) (df : DataFrame) : IssuesCheck :=
  let issues := (rules.data_types.map (dataTypeIssues df)).flatten
  { status := if issues.length = 0 then ("pass") else ("fail")
    issues := issues }

/-- Messages contributed by one `(field, ranges)` entry of the `value_ranges`
loop (the numeric bound rendering inside the message is abbreviated). -/
def rangeIssues (df : DataFrame) (p : String × Option ℚ × Option ℚ) : List String :=
  if df.hasCol p.1 then
    (match p.2.1 with
      | some m =>
        let c := (df.col p.1).countP
          (fun v => match v with | .num q => decide (q < m) | _ => false)
        if 0 < c then [p.1 ++ (": ") ++ natStr c ++ (" values below minimum")] else []
      | none => []) ++
    (match p.2.2 with
      | some m =>
        let c := (df.col p.1).countP
          (fun v => match v with | .num q => decide (m < q) | _ => false)
        if 0 < c then [p.1 ++ (": ") ++ natStr c ++ (" values above maximum")] else []
      | none => [])
  else []

/-- The `value_ranges` check of `validate_data_quality`. -/
def valueRangesCheck (rules : GovRules) (df : DataFrame) : IssuesCheck :=
  let issues := (rules.value_ranges.map (rangeIssues df)).flatten
  { status := if issues.length = 0 then ("pass") else ("fail")
    issues := issues }

/-- The `duplicates` check result. -/
structure DuplicatesCheck where
  status : String
  duplicate_count : Nat
deriving DecidableEq

/-- The `duplicates` check of `validate_data_quality`. -/
def duplicatesCheck (df : DataFrame) : DuplicatesCheck :=
  { status := if dupCount df = 0 then ("pass") else ("fail")
    duplicate_count := dupCount df }

/-- The `null_values` check result (`null_counts` is the `null_issues` dict,
in required-field order). -/
structure NullValuesCheck where
  status : String
  null_counts : List (String × Nat)
deriving DecidableEq

/-- The entry the `null_values` loop contributes for one required field. -/
def nullEntry (df : DataFrame) (f : String) : Option (String × Nat) :=
  if df.hasCol f then
    (let c := (df.col f).countP Value.isNull
     if 0 < c then some (f, c) else none)
  else none

/-- The `null_values` check of `validate_data_quality`. -/
def nullValuesCheck (rules : GovRules) (df : DataFrame) : NullValuesCheck :=
  let entries := rules.required_fields.filterMap (nullEntry df)
  { status := if entries.length = 0 then ("pass") else ("fail")
    null_counts := entries }

/-- The dictionary returned by `validate_data_quality`. -/
structure ValidationResults where
  timestamp : String
  total_records : Nat
  required_fields : RequiredFieldsCheck
  data_types : IssuesCheck
  value_ranges : IssuesCheck
  duplicates : DuplicatesCheck
  null_values : NullValuesCheck
  overall_status : String
deriving DecidableEq

/-- `validate_data_quality` on an in-memory dataset; `overall_status` is
`pass` exactly when all five checks report `pass`. -/
def validate_data_quality (rules : GovRules) (ts : String) (df : DataFrame) :
    ValidationResults :=
  let rf := requiredFieldsCheck rules df
  let dt := dataTypesCheck rules df
  let vr := valueRangesCheck rules df
  let dup := duplicatesCheck df
  let nv := nullValuesCheck rules df
  { timestamp := ts
    total_records := df.nrows
    required_fields := rf
    data_types := dt
    value_ranges := vr
    duplicates := dup
    null_values := nv
    overall_status :=
      if rf.status == ("pass") && dt.status == ("pass") && vr.status == ("pass") &&
          dup.status == ("pass") && nv.status == ("pass")
      then ("pass") else ("fail") }

/-- Dropping one field from every field list of a rule set; used to state that
the non-`required_fields` checks ignore a field absent from the dataset. -/
def GovRules.dropField (rules : GovRules) (f : String) : GovRules :=
  { required_fields := rules.required_fields.filter (fun x => !(x == f))
    data_types := rules.data_types.filter (fun p => !(p.1 == f))
    value_ranges := rules.value_ranges.filter (fun p => !(p.1 == f)) }

/-! Helper lemmas: decimal rendering and re-parsing. -/

/-- Every character of a rendered count is a digit and is not a space. -/
theorem natChars_spec (n : Nat) :
    ∀ c ∈ natChars n, c.isDigit = true ∧ (c == ' ') = false := by
  intro c hc
  unfold natChars at hc
  split at hc
  · simp only [List.mem_singleton] at hc
    subst hc
    exact ⟨by decide, by decide⟩
  · rw [List.mem_reverse, List.mem_map] at hc
    obtain ⟨d, hd, rfl⟩ := hc
    have hd10 : d < 10 := Nat.digits_lt_base (by norm_num) hd
    interval_cases d <;> exact ⟨by decide, by decide⟩

/-- A rendered count is never the empty string. -/
theorem natChars_ne_nil (n : Nat) : natChars n ≠ [] := by
  unfold natChars
  split
  · decide
  · intro h
    rw [List.reverse_eq_nil_iff, List.map_eq_nil_iff, Nat.digits_eq_nil_iff_eq_zero] at h
    omega

/-- Folding the decimal digits big-endian recovers `Nat.ofDigits`. -/
theorem foldr_digits_eq_ofDigits :
    ∀ ds : List Nat, (∀ d ∈ ds, d < 10) →
      ds.foldr (fun d a => a * 10 + digitVal (Nat.digitChar d)) 0 = Nat.ofDigits 10 ds := by
  intro ds
  induction ds with
  | nil => intro _; rfl
  | cons d ds ih =>
    intro h
    have hd10 : d < 10 := h d (List.mem_cons_self d ds)
    have hval : digitVal (Nat.digitChar d) = d := by interval_cases d <;> decide
    rw [List.foldr_cons, ih (fun x hx => h x (List.mem_cons_of_mem d hx)), hval,
      Nat.ofDigits_cons]
    omega

/-- Re-parsing the rendered decimal digits of `n` gives back `n`. -/
theorem digitsToNat_natChars (n : Nat) : digitsToNat (natChars n) = n := by
  unfold natChars
  split
  · rename_i h
    subst h
    decide
  · unfold digitsToNat
    rw [← List.map_reverse, List.foldl_map, List.foldl_reverse]
    rw [foldr_digits_eq_ofDigits (Nat.digits 10 n)
      (fun d hd => Nat.digits_lt_base (by norm_num) hd)]
    exact Nat.ofDigits_digits 10 n

/-- `takeWhile` swallows a satisfying block up to the first failing element. -/
theorem takeWhile_all_append (p : Char → Bool) :
    ∀ (l1 : List Char) (x : Char) (l2 : List Char),
      (∀ c ∈ l1, p c = true) → p x = false → (l1 ++ x :: l2).takeWhile p = l1
  | [], x, l2, _, hx => by simp [List.takeWhile_cons, hx]
  | c :: l1, x, l2, h, hx => by
    have hc : p c = true := h c (List.mem_cons_self c l1)
    simp only [List.cons_append, List.takeWhile_cons, hc, if_true]
    rw [takeWhile_all_append p l1 x l2 (fun d hd => h d (List.mem_cons_of_mem c hd)) hx]

/-- Parsing a generated message `str(n) + " ..."` recovers the count `n`. -/
theorem parseIssue_msg (n : Nat) (rest : String) (cs : List Char)
    (h : rest.data = ' ' :: cs) : parseIssue (natStr n ++ rest) = n := by
  have hdata : (natStr n ++ rest).data = natChars n ++ (' ' :: cs) := by
    rw [String.data_append, h]
    rfl
  have htok : firstTok (natStr n ++ rest) = natChars n := by
    unfold firstTok
    rw [hdata]
    exact takeWhile_all_append _ _ _ _
      (fun c hc => by simp [(natChars_spec n c hc).2]) (by decide)
  have hdig : isDigitTok (natChars n) = true := by
    unfold isDigitTok
    rw [Bool.and_eq_true, List.all_eq_true]
    constructor
    · simpa [List.isEmpty_iff] using natChars_ne_nil n
    · exact fun c hc => (natChars_spec n c hc).1
  unfold parseIssue
  rw [htok, if_pos hdig]
  exact digitsToNat_natChars n

/-- `parsedCount` is additive on concatenated issue lists. -/
theorem parsedCount_append (a b : List String) :
    parsedCount (a ++ b) = parsedCount a + parsedCount b := by
  simp [parsedCount]

/-! Helper lemmas: column access and issue counting. -/

/-- A missing column yields the empty cell list. -/
theorem col_eq_nil (df : DataFrame) (c : String) (h : df.hasCol c = false) :
    df.col c = [] := by
  unfold DataFrame.col
  unfold DataFrame.hasCol at h
  cases hidx : df.colIdx c with
  | none => rfl
  | some i => rw [hidx] at h; simp at h

/-- A present column has one cell per row. -/
theorem col_length_of_some (df : DataFrame) (c : String) (i : Nat)
    (h : df.colIdx c = some i) : (df.col c).length = df.nrows := by
  unfold DataFrame.col
  rw [h]
  simp [DataFrame.nrows]

/-- Every column has at most one cell per row. -/
theorem col_length_le (df : DataFrame) (c : String) : (df.col c).length ≤ df.nrows := by
  cases h : df.colIdx c with
  | none => unfold DataFrame.col; rw [h]; simp
  | some i => rw [col_length_of_some df c i h]

/-- Parsing the negative-premium message. -/
theorem parse_msg_neg (n : Nat) :
    parseIssue (natStr n ++ (" negative premium values")) = n :=
  parseIssue_msg n _ _ rfl

/-- Parsing the over-a-million message. -/
theorem parse_msg_over (n : Nat) :
    parseIssue (natStr n ++ (" premiums over $1M")) = n :=
  parseIssue_msg n _ _ rfl

/-- Parsing the duplicate-records message. -/
theorem parse_msg_dup (n : Nat) :
    parseIssue (natStr n ++ (" duplicate records")) = n :=
  parseIssue_msg n _ _ rfl

/-- Parsing the active-policies message. -/
theorem parse_msg_active (n : Nat) :
    parseIssue (natStr n ++ (" active policies with lapse dates")) = n :=
  parseIssue_msg n _ _ rfl

/-- Parsing the null-policy-id message. -/
theorem parse_msg_nullpid (n : Nat) :
    parseIssue (natStr n ++ (" null values in policy_id")) = n :=
  parseIssue_msg n _ _ rfl

/-- Parsing the non-numeric-premium message. -/
theorem parse_msg_nonnum (n : Nat) :
    parseIssue (natStr n ++ (" non-numeric premium values")) = n :=
  parseIssue_msg n _ _ rfl

/-- The parsed accuracy issue count equals the direct mask-based count. -/
theorem parsed_accuracy (df : DataFrame) :
    parsedCount (accuracy_issues df) = negPremiums df + overMillion df := by
  unfold accuracy_issues
  rw [parsedCount_append]
  cases hc : df.hasCol ("annual_premium") with
  | false =>
    have hnil : df.col ("annual_premium") = [] := col_eq_nil df _ hc
    simp [hc, negPremiums, overMillion, hnil, parsedCount]
  | true =>
    by_cases hn : 0 < negPremiums df <;> by_cases ho : 0 < overMillion df <;>
      simp [hc, hn, ho, parsedCount, parse_msg_neg, parse_msg_over] <;> omega

/-- When the status or lapse-date column is absent, the cross-field
inconsistency mask is empty. -/
theorem inconsistentCount_eq_zero_of_missing (df : DataFrame)
    (h : df.hasCol ("status") = false ∨ df.hasCol ("lapse_date") = false) :
    inconsistentCount df = 0 := by
  unfold inconsistentCount
  rcases h with h | h
  · rw [col_eq_nil df _ h]; simp
  · rw [col_eq_nil df _ h]; simp

/-- The parsed consistency issue count equals the direct mask-based count:
duplicated rows plus active-with-lapse-date rows. -/
theorem parsed_consistency (df : DataFrame) :
    parsedCount (consistency_issues df) = dupCount df + inconsistentCount df := by
  unfold consistency_issues
  rw [parsedCount_append]
  have hdup : parsedCount (if decide (0 < dupCount df) then
      [natStr (dupCount df) ++ (" duplicate records")] else []) = dupCount df := by
    by_cases hd : 0 < dupCount df <;> simp [hd, parsedCount, parse_msg_dup] <;> omega
  rw [hdup]
  cases hs : df.hasCol ("status") with
  | false =>
    rw [inconsistentCount_eq_zero_of_missing df (Or.inl hs)]
    simp [hs, parsedCount]
  | true =>
    cases hl : df.hasCol ("lapse_date") with
    | false =>
      rw [inconsistentCount_eq_zero_of_missing df (Or.inr hl)]
      simp [hs, hl, parsedCount]
    | true =>
      by_cases hi : 0 < inconsistentCount df <;>
        simp [hs, hl, hi, parsedCount, parse_msg_active] <;> omega

/-- The parsed validity issue count equals the direct mask-based count:
nulls in `policy_id` plus non-coercible `annual_premium` cells. -/
theorem parsed_validity (df : DataFrame) :
    parsedCount (validity_issues df) = policyIdNulls df + nonNumericPremiums df := by
  unfold validity_issues
  rw [parsedCount_append]
  have h1 : parsedCount (if df.hasCol ("policy_id") && decide (0 < policyIdNulls df) then
      [natStr (policyIdNulls df) ++ (" null values in policy_id")] else []) =
      policyIdNulls df := by
    cases hc : df.hasCol ("policy_id") with
    | false =>
      have hnil : df.col ("policy_id") = [] := col_eq_nil df _ hc
      simp [hc, parsedCount, policyIdNulls, hnil]
    | true =>
      by_cases hn : 0 < policyIdNulls df <;>
        simp [hc, hn, parsedCount, parse_msg_nullpid] <;> omega
  have h2 : parsedCount (if df.hasCol ("annual_premium") && decide (0 < nonNumericPremiums df)
      then [natStr (nonNumericPremiums df) ++ (" non-numeric premium values")] else []) =
      nonNumericPremiums df := by
    cases hc : df.hasCol ("annual_premium") with
    | false =>
      have hnil : df.col ("annual_premium") = [] := col_eq_nil df _ hc
      simp [hc, parsedCount, nonNumericPremiums, hnil]
    | true =>
      by_cases hn : 0 < nonNumericPremiums df <;>
        simp [hc, hn, parsedCount, parse_msg_nonnum] <;> omega
  rw [h1, h2]

/-! Helper lemmas: counting bounds. -/

/-- Two mutually exclusive masks over one column count at most every cell once. -/
theorem countP_disjoint_le {α : Type} (p q : α → Bool) :
    ∀ l : List α, (∀ x ∈ l, ¬(p x = true ∧ q x = true)) →
      l.countP p + l.countP q ≤ l.length := by
  intro l
  induction l with
  | nil => intro _; simp
  | cons a l ih =>
    intro h
    have ha := h a (List.mem_cons_self a l)
    have hl := ih (fun x hx => h x (List.mem_cons_of_mem a hx))
    rw [List.countP_cons, List.countP_cons, List.length_cons]
    by_cases hp : p a = true <;> by_cases hq : q a = true <;>
      simp [hp, hq] at ha ⊢ <;> omega

/-- There are at most as many null cells as cells. -/
theorem nullCells_le_totalCells (df : DataFrame) : nullCells df ≤ totalCells df := by
  unfold nullCells totalCells
  have h := List.sum_le_card_nsmul
    (df.columns.map (fun c => (df.col c).countP Value.isNull)) df.nrows ?_
  · rw [List.length_map] at h
    rw [smul_eq_mul] at h
    rw [Nat.mul_comm]
    exact h
  · intro x hx
    rw [List.mem_map] at hx
    obtain ⟨c, _, rfl⟩ := hx
    exact le_trans (List.countP_le_length _) (col_length_le df c)

/-- The duplicated-row count never exceeds the row count. -/
theorem dupCountAux_le : ∀ (l seen : List (List Value)), dupCountAux seen l ≤ l.length := by
  intro l
  induction l with
  | nil => intro _; simp [dupCountAux]
  | cons r rs ih =>
    intro seen
    have := ih (r :: seen)
    unfold dupCountAux
    by_cases h : r ∈ seen <;> simp [h] <;> omega

/-- The inconsistency mask counts at most every row once. -/
theorem inconsistentCount_le (df : DataFrame) : inconsistentCount df ≤ df.nrows := by
  unfold inconsistentCount
  refine le_trans (List.countP_le_length _) (le_trans ?_ (col_length_le df ("status")))
  rw [List.length_zip]
  exact Nat.min_le_left _ _

/-- A score of the shape `1 - k/n` with `k ≤ n` lies in `[0, 1]`. -/
theorem sub_div_bounds (k n : Nat) (hn : 0 < n) (h : k ≤ n) :
    0 ≤ 1 - (k : ℚ)/(n : ℚ) ∧ 1 - (k : ℚ)/(n : ℚ) ≤ 1 := by
  have hn' : (0 : ℚ) < (n : ℚ) := by exact_mod_cast hn
  have hkn : (k : ℚ) ≤ (n : ℚ) := by exact_mod_cast h
  constructor
  · have hd : (k : ℚ)/(n : ℚ) ≤ 1 := by rw [div_le_one hn']; exact hkn
    linarith
  · have hd : 0 ≤ (k : ℚ)/(n : ℚ) := by positivity
    linarith

/-- A score of the shape `1 - k/n` with `k ≤ 2n` lies in `[-1, 1]`. -/
theorem sub_div_bounds2 (k n : Nat) (hn : 0 < n) (h : k ≤ 2 * n) :
    -1 ≤ 1 - (k : ℚ)/(n : ℚ) ∧ 1 - (k : ℚ)/(n : ℚ) ≤ 1 := by
  have hn' : (0 : ℚ) < (n : ℚ) := by exact_mod_cast hn
  have hkn : (k : ℚ) ≤ 2 * (n : ℚ) := by exact_mod_cast h
  constructor
  · have hd : (k : ℚ)/(n : ℚ) ≤ 2 := by rw [div_le_iff₀ hn']; linarith
    linarith
  · have hd : 0 ≤ (k : ℚ)/(n : ℚ) := by positivity
    linarith

/-! Helper lemmas: duplicated rows of a dataset concatenated with itself. -/

/-- Defining equation of the duplicate scan on the empty row list. -/
theorem dupCountAux_nil (seen : List (List Value)) : dupCountAux seen [] = 0 := rfl

/-- Defining equation of the duplicate scan on a row-list cons. -/
theorem dupCountAux_cons (seen : List (List Value)) (r : List Value)
    (rs : List (List Value)) :
    dupCountAux seen (r :: rs) = (if r ∈ seen then 1 else 0) + dupCountAux (r :: seen) rs :=
  rfl

/-- The seen accumulator matters only up to membership. -/
theorem dupCountAux_congr : ∀ (l s1 s2 : List (List Value)),
    (∀ r, r ∈ s1 ↔ r ∈ s2) → dupCountAux s1 l = dupCountAux s2 l := by
  intro l
  induction l with
  | nil => intro _ _ _; rfl
  | cons r rs ih =>
    intro s1 s2 h
    unfold dupCountAux
    rw [ih (r :: s1) (r :: s2) (fun x => by simp [List.mem_cons, h x])]
    by_cases hr : r ∈ s1
    · rw [if_pos hr, if_pos ((h r).1 hr)]
    · rw [if_neg hr, if_neg (fun hx => hr ((h r).2 hx))]

/-- Splitting the duplicated-row scan at a concatenation point. -/
theorem dupCountAux_append : ∀ (l1 l2 seen : List (List Value)),
    dupCountAux seen (l1 ++ l2) =
      dupCountAux seen l1 + dupCountAux (l1.reverse ++ seen) l2 := by
  intro l1
  induction l1 with
  | nil => intro l2 seen; simp [dupCountAux]
  | cons r rs ih =>
    intro l2 seen
    simp only [List.cons_append]
    rw [dupCountAux_cons, dupCountAux_cons, ih l2 (r :: seen)]
    rw [dupCountAux_congr l2 (rs.reverse ++ r :: seen) ((r :: rs).reverse ++ seen)
      (fun x => by
        simp only [List.reverse_cons, List.mem_append, List.mem_cons, List.mem_singleton]
        tauto)]
    omega

/-- Pairwise distinct unseen rows contribute no duplicates. -/
theorem dupCountAux_nodup : ∀ (l seen : List (List Value)),
    l.Nodup → (∀ r ∈ l, r ∉ seen) → dupCountAux seen l = 0 := by
  intro l
  induction l with
  | nil => intro _ _ _; rfl
  | cons r rs ih =>
    intro seen hnd hns
    unfold dupCountAux
    rw [if_neg (hns r (List.mem_cons_self r rs))]
    rw [ih (r :: seen) (List.Nodup.of_cons hnd) ?_]
    intro x hx
    rw [List.mem_cons]
    rintro (rfl | hxs)
    · exact (List.nodup_cons.1 hnd).1 hx
    · exact hns x (List.mem_cons_of_mem r hx) hxs

/-- Rows already seen are all counted as duplicates. -/
theorem dupCountAux_all_seen : ∀ (l seen : List (List Value)),
    (∀ r ∈ l, r ∈ seen) → dupCountAux seen l = l.length := by
  intro l
  induction l with
  | nil => intro _ _; rfl
  | cons r rs ih =>
    intro seen h
    unfold dupCountAux
    rw [if_pos (h r (List.mem_cons_self r rs))]
    rw [ih (r :: seen) (fun x hx => List.mem_cons_of_mem r (h x (List.mem_cons_of_mem r hx)))]
    simp [Nat.add_comm]

/-- Concatenating a dataset of pairwise distinct rows with itself marks
exactly the second copy of every row as duplicated. -/
theorem dupCount_self_append (rows : List (List Value)) (h : rows.Nodup) :
    dupCountAux [] (rows ++ rows) = rows.length := by
  rw [dupCountAux_append]
  rw [dupCountAux_nodup rows [] h (fun r _ hx => (List.not_mem_nil r) hx)]
  rw [dupCountAux_all_seen rows (rows.reverse ++ []) (fun r hr => by simp [hr])]
  omega

/-- Column extraction of a dataset concatenated with itself. -/
theorem col_self_append (df : DataFrame) (c : String) :
    (DataFrame.mk df.columns (df.rows ++ df.rows)).col c = df.col c ++ df.col c := by
  unfold DataFrame.col DataFrame.colIdx
  cases h : df.columns.findIdx? (fun x => x == c) <;> simp [h]

/-- The cross-field inconsistency count of a dataset concatenated with
itself doubles. -/
theorem inconsistentCount_self_append (df : DataFrame) :
    inconsistentCount (DataFrame.mk df.columns (df.rows ++ df.rows)) =
      2 * inconsistentCount df := by
  unfold inconsistentCount
  rw [col_self_append, col_self_append]
  cases hs : df.colIdx ("status") with
  | none =>
    have : df.col ("status") = [] := by unfold DataFrame.col; rw [hs]
    simp [this]
  | some i =>
    cases hl : df.colIdx ("lapse_date") with
    | none =>
      have : df.col ("lapse_date") = [] := by unfold DataFrame.col; rw [hl]
      simp [this]
    | some j =>
      rw [List.zip_append (by rw [col_length_of_some df _ i hs, col_length_of_some df _ j hl])]
      rw [List.countP_append]
      omega

/-! Helper lemmas: the trend classifier on ten-report windows. -/

/-- For a 10-score history the two mean comparisons of `_calculate_trend`
(`recent_avg > earlier_avg * 1.05`, `recent_avg < earlier_avg * 0.95`)
reduce to integer-coefficient comparisons of the window sums. -/
theorem calculate_trend_len10 (scores : List ℚ) (h10 : scores.length = 10) :
    calculate_trend scores =
      if 21 * (scores.take 5).sum < 20 * (scores.drop 5).sum then ("improving")
      else if 20 * (scores.drop 5).sum < 19 * (scores.take 5).sum then ("declining")
      else ("stable") := by
  unfold calculate_trend
  simp only [h10, List.length_drop, List.length_take]
  norm_num
  have hA : (scores.take 5).sum / 5 * (21/20) < (scores.drop 5).sum / 5 ↔
      21 * (scores.take 5).sum < 20 * (scores.drop 5).sum := by
    constructor <;> intro h <;> linarith
  have hB : (scores.drop 5).sum / 5 < (scores.take 5).sum / 5 * (19/20) ↔
      20 * (scores.drop 5).sum < 19 * (scores.take 5).sum := by
    constructor <;> intro h <;> linarith
  rw [if_congr hA rfl (if_congr hB rfl rfl)]

/-- C3 (amended): `_calculate_trend` on a 10-report history returns
`improving` exactly when the mean of the last five scores exceeds 1.05 times
the mean of the first five (equivalently `21·(first five sum) < 20·(last five
sum)`), `declining` exactly when it is below 0.95 times it and `improving`
did not fire, and `stable` otherwise; a strictly increasing or decreasing
sequence alone does not suffice. A constant history of length at least 2 with
a nonnegative score yields `stable`, and a single-report history yields
`insufficient_data`. -/
theorem calculate_trend_spec :
    (∀ scores : List ℚ, scores.length = 10 →
      ((calculate_trend scores = ("improving") ↔
          21 * (scores.take 5).sum < 20 * (scores.drop 5).sum) ∧
        (calculate_trend scores = ("declining") ↔
          (¬ 21 * (scores.take 5).sum < 20 * (scores.drop 5).sum ∧
            20 * (scores.drop 5).sum < 19 * (scores.take 5).sum)) ∧
        (calculate_trend scores = ("stable") ↔
          (¬ 21 * (scores.take 5).sum < 20 * (scores.drop 5).sum ∧
            ¬ 20 * (scores.drop 5).sum < 19 * (scores.take 5).sum)))) ∧
    (∀ (c : ℚ) (n : ℕ), 2 ≤ n → 0 ≤ c →
      calculate_trend (List.replicate n c) = ("stable")) ∧
    (∀ s : ℚ, calculate_trend [s] = ("insufficient_data")) := by
  refine ⟨?_, ?_, ?_⟩
  · intro scores h10
    rw [calculate_trend_len10 scores h10]
    by_cases hA : 21 * (scores.take 5).sum < 20 * (scores.drop 5).sum
    · simp [hA]
    · by_cases hB : 20 * (scores.drop 5).sum < 19 * (scores.take 5).sum
      · simp [hA, hB]
      · simp [hA, hB]
  · intro c n h2 hc
    unfold calculate_trend
    rw [List.length_replicate]
    rw [if_neg (by omega)]
    simp only [List.drop_replicate, List.take_replicate]
    have hk : n - (n - 5) = min 5 n := by omega
    rw [hk]
    have hkpos : 0 < min 5 n := by omega
    rw [if_pos (by simp [List.length_replicate, hkpos])]
    have hsum : (List.replicate (min 5 n) c).sum = ((min 5 n : ℕ) : ℚ) * c := by
      rw [List.sum_replicate, nsmul_eq_mul]
    have hlen : ((List.replicate (min 5 n) c).length : ℚ) = ((min 5 n : ℕ) : ℚ) := by
      rw [List.length_replicate]
    have hne : ((min 5 n : ℕ) : ℚ) ≠ 0 := by
      exact_mod_cast Nat.pos_iff_ne_zero.1 hkpos
    have havg : (List.replicate (min 5 n) c).sum /
        ((List.replicate (min 5 n) c).length : ℚ) = c := by
      rw [hsum, hlen, mul_comm, mul_div_assoc, div_self hne, mul_one]
    rw [havg]
    rw [if_neg (by push_neg; nlinarith), if_neg (by push_neg; nlinarith)]
  · intro s
    rfl

/-- C3 (counterexample): the strictly increasing 10-score history
0.900, 0.901, …, 0.909 is classified `stable`, not `improving`, because its
last-five mean does not exceed the first-five mean by more than 5%. -/
theorem calculate_trend_increasing_stable :
    List.Chain' (· < ·)
      [(900 : ℚ)/1000, 901/1000, 902/1000, 903/1000, 904/1000,
        905/1000, 906/1000, 907/1000, 908/1000, 909/1000] ∧
    calculate_trend
      [(900 : ℚ)/1000, 901/1000, 902/1000, 903/1000, 904/1000,
        905/1000, 906/1000, 907/1000, 908/1000, 909/1000] = ("stable") := by
  constructor
  · simp only [List.chain'_cons, List.chain'_singleton, and_true]
    norm_num
  · rw [calculate_trend_len10 _ (by rfl)]
    norm_num

/-- Witness for the amended C3 theorem at concrete inputs. -/
theorem calculate_trend_spec_witness :
    (([(1 : ℚ), 1, 1, 1, 1, 1, 1, 1, 1, 1].length = 10) ∧
      (calculate_trend [(1 : ℚ), 1, 1, 1, 1, 1, 1, 1, 1, 1] = ("improving") ↔
        21 * ([(1 : ℚ), 1, 1, 1, 1, 1, 1, 1, 1, 1].take 5).sum <
          20 * ([(1 : ℚ), 1, 1, 1, 1, 1, 1, 1, 1, 1].drop 5).sum)) ∧
    ((2 ≤ 3 ∧ (0 : ℚ) ≤ 1/2) ∧
      calculate_trend (List.replicate 3 ((1 : ℚ)/2)) = ("stable")) ∧
    calculate_trend [(7 : ℚ)] = ("insufficient_data") :=
  ⟨⟨by norm_num, (calculate_trend_spec.1 _ (by norm_num)).1⟩,
    ⟨⟨by norm_num, by norm_num⟩, calculate_trend_spec.2.1 (1/2) 3 (by norm_num) (by norm_num)⟩,
    calculate_trend_spec.2.2 7⟩

/-- C10: a history of between two and five reports with nonnegative overall
scores is always classified `stable`, whatever the ordering, because the
most-recent-five and earliest-five windows coincide with the whole list. -/
theorem trend_short_window_stable (scores : List ℚ) (h2 : 2 ≤ scores.length)
    (h5 : scores.length ≤ 5) (hpos : ∀ s ∈ scores, 0 ≤ s) :
    calculate_trend scores = ("stable") := by
  unfold calculate_trend
  have hd : scores.length - 5 = 0 := by omega
  have hdrop : scores.drop (scores.length - 5) = scores := by rw [hd]; rfl
  have htake : scores.take 5 = scores := List.take_of_length_le h5
  rw [if_neg (by omega)]
  simp only [hdrop, htake]
  have hlen : 0 < scores.length := by omega
  rw [if_pos (by simp [hlen])]
  have hm : 0 ≤ scores.sum / (scores.length : ℚ) := by
    apply div_nonneg (List.sum_nonneg hpos)
    positivity
  rw [if_neg (by push_neg; nlinarith), if_neg (by push_neg; nlinarith)]

/-- Witness for C10 at the strictly decreasing two-score history 1, 0. -/
theorem trend_short_window_stable_witness :
    (2 ≤ [(1 : ℚ), 0].length ∧ [(1 : ℚ), 0].length ≤ 5 ∧
      ∀ s ∈ [(1 : ℚ), 0], 0 ≤ s) ∧
    calculate_trend [(1 : ℚ), 0] = ("stable") :=
  ⟨⟨by norm_num, by norm_num, by intro s hs; rcases List.mem_cons.1 hs with rfl | hs <;>
      simp_all <;> norm_num⟩,
    trend_short_window_stable [(1 : ℚ), 0] (by norm_num) (by norm_num)
      (by intro s hs; rcases List.mem_cons.1 hs with rfl | hs <;> simp_all <;> norm_num)⟩

/-- C2: a dataset with zero rows is scored without error; every dimension
score is 1 (each division-by-zero guard yields the vacuous ratio 1), the
overall score is 1, and the status is `excellent`. -/
theorem empty_dataset_vacuous_pass (thr : Thresholds) (ts : String) (df : DataFrame)
    (h : df.rows = []) :
    (check_data_quality thr ts df).completeness.score = 1 ∧
    (check_data_quality thr ts df).accuracy.score = 1 ∧
    (check_data_quality thr ts df).consistency.score = 1 ∧
    (check_data_quality thr ts df).validity.score = 1 ∧
    (check_data_quality thr ts df).overall_quality_score = 1 ∧
    (check_data_quality thr ts df).quality_status = ("excellent") := by
  have hn : df.nrows = 0 := by simp [DataFrame.nrows, h]
  have hc : completeness_score df = 1 := by simp [completeness_score, totalCells, hn]
  have ha : accuracy_score df = 1 := by simp [accuracy_score, hn]
  have hco : consistency_score df = 1 := by simp [consistency_score, hn]
  have hv : validity_score df = 1 := by simp [validity_score, hn]
  have ho : overall_score df = 1 := by
    rw [overall_score, hc, ha, hco, hv]; norm_num
  have hs : qualityStatus (overall_score df) = ("excellent") := by
    rw [ho]; unfold qualityStatus; rw [if_pos (by norm_num)]
  exact ⟨hc, ha, hco, hv, ho, hs⟩

/-- Witness for C2 at a concrete empty dataset with one declared column. -/
theorem empty_dataset_vacuous_pass_witness :
    (DataFrame.mk [("policy_id")] []).rows = [] ∧
    (check_data_quality defaultThresholds ("t") (DataFrame.mk [("policy_id")] [])).completeness.score = 1 ∧
    (check_data_quality defaultThresholds ("t") (DataFrame.mk [("policy_id")] [])).overall_quality_score = 1 ∧
    (check_data_quality defaultThresholds ("t") (DataFrame.mk [("policy_id")] [])).quality_status = ("excellent") :=
  ⟨rfl,
    (empty_dataset_vacuous_pass defaultThresholds ("t") (DataFrame.mk [("policy_id")] []) rfl).1,
    (empty_dataset_vacuous_pass defaultThresholds ("t") (DataFrame.mk [("policy_id")] []) rfl).2.2.2.2.1,
    (empty_dataset_vacuous_pass defaultThresholds ("t") (DataFrame.mk [("policy_id")] []) rfl).2.2.2.2.2⟩

/-- The status rank of a bucketed score as a nested threshold test. -/
theorem statusRank_qualityStatus (s : ℚ) :
    statusRank (qualityStatus s) =
      if 95/100 ≤ s then 3 else if 85/100 ≤ s then 2 else if 75/100 ≤ s then 1 else 0 := by
  unfold qualityStatus
  split_ifs <;> rfl

/-- C8: the `quality_status` buckets are `excellent` iff the overall score is
at least 0.95, `good` iff in `[0.85, 0.95)`, `fair` iff in `[0.75, 0.85)`,
`poor` iff below 0.75, and the bucketing is monotone for the order
`poor < fair < good < excellent`. -/
theorem quality_status_buckets_monotone (s s1 s2 : ℚ) (h : s1 ≤ s2) :
    (qualityStatus s = ("excellent") ↔ 95/100 ≤ s) ∧
    (qualityStatus s = ("good") ↔ 85/100 ≤ s ∧ s < 95/100) ∧
    (qualityStatus s = ("fair") ↔ 75/100 ≤ s ∧ s < 85/100) ∧
    (qualityStatus s = ("poor") ↔ s < 75/100) ∧
    statusRank (qualityStatus s1) ≤ statusRank (qualityStatus s2) := by
  refine ⟨?_, ?_, ?_, ?_, ?_⟩
  · unfold qualityStatus
    split_ifs with h1 h2 h3 <;> simp_all <;> linarith
  · unfold qualityStatus
    split_ifs with h1 h2 h3 <;> simp_all <;> intro h' <;> linarith
  · unfold qualityStatus
    split_ifs with h1 h2 h3 <;> simp_all <;> intro h' <;> linarith
  · unfold qualityStatus
    split_ifs with h1 h2 h3 <;> simp_all <;> linarith
  · rw [statusRank_qualityStatus, statusRank_qualityStatus]
    split_ifs <;> first | omega | (exfalso; linarith)

/-- Witness for C8 at scores 0.9 and 0.96. -/
theorem quality_status_buckets_monotone_witness :
    ((90 : ℚ)/100 ≤ 96/100) ∧
    (qualityStatus ((90 : ℚ)/100) = ("excellent") ↔ 95/100 ≤ (90 : ℚ)/100) ∧
    (qualityStatus ((90 : ℚ)/100) = ("good") ↔
      85/100 ≤ (90 : ℚ)/100 ∧ (90 : ℚ)/100 < 95/100) ∧
    statusRank (qualityStatus ((90 : ℚ)/100)) ≤ statusRank (qualityStatus ((96 : ℚ)/100)) :=
  ⟨by norm_num,
    (quality_status_buckets_monotone (90/100) (90/100) (96/100) (by norm_num)).1,
    (quality_status_buckets_monotone (90/100) (90/100) (96/100) (by norm_num)).2.1,
    (quality_status_buckets_monotone (90/100) (90/100) (96/100) (by norm_num)).2.2.2.2⟩

/-- C1 (counterexample): a one-row dataset whose `policy_id` and
`annual_premium` are both null gets validity score −1: the null premium is
counted once as a required-field null and once as a non-coercible value, so
`issue_count = 2` exceeds the single record. -/
theorem validity_score_negative_counterexample :
    (check_data_quality defaultThresholds ("t")
      (DataFrame.mk [("policy_id"), ("annual_premium")] [[Value.null, Value.null]])).validity.score
      = -1 ∧
    (check_data_quality defaultThresholds ("t")
      (DataFrame.mk [("policy_id"), ("annual_premium")] [[Value.null, Value.null]])).validity.score
      < 0 := by
  have hv : validity_score
      (DataFrame.mk [("policy_id"), ("annual_premium")] [[Value.null, Value.null]]) = -1 := by
    unfold validity_score
    rw [parsed_validity]
    have h1 : policyIdNulls
        (DataFrame.mk [("policy_id"), ("annual_premium")] [[Value.null, Value.null]]) = 1 := by
      decide
    have h2 : nonNumericPremiums
        (DataFrame.mk [("policy_id"), ("annual_premium")] [[Value.null, Value.null]]) = 1 := by
      decide
    have hn : (DataFrame.mk [("policy_id"), ("annual_premium")]
        [[Value.null, Value.null]]).nrows = 1 := rfl
    rw [h1, h2, hn]
    norm_num
  constructor
  · exact hv
  · rw [show (check_data_quality defaultThresholds ("t")
      (DataFrame.mk [("policy_id"), ("annual_premium")] [[Value.null, Value.null]])).validity.score
      = validity_score
        (DataFrame.mk [("policy_id"), ("annual_premium")] [[Value.null, Value.null]]) from rfl, hv]
    norm_num

/-- C1 (amended): completeness and accuracy scores always lie in `[0, 1]`;
consistency and validity scores always lie in `[-1, 1]`, and can genuinely go
below 0 when one record contributes to several issue counts at once. -/
theorem check_data_quality_scores_bounded (thr : Thresholds) (ts : String) (df : DataFrame) :
    (0 ≤ (check_data_quality thr ts df).completeness.score ∧
      (check_data_quality thr ts df).completeness.score ≤ 1) ∧
    (0 ≤ (check_data_quality thr ts df).accuracy.score ∧
      (check_data_quality thr ts df).accuracy.score ≤ 1) ∧
    (-1 ≤ (check_data_quality thr ts df).consistency.score ∧
      (check_data_quality thr ts df).consistency.score ≤ 1) ∧
    (-1 ≤ (check_data_quality thr ts df).validity.score ∧
      (check_data_quality thr ts df).validity.score ≤ 1) := by
  have hrows : df.nrows = df.rows.length := rfl
  refine ⟨?_, ?_, ?_, ?_⟩
  · show 0 ≤ completeness_score df ∧ completeness_score df ≤ 1
    unfold completeness_score
    split_ifs with hpos
    · exact sub_div_bounds _ _ hpos (nullCells_le_totalCells df)
    · norm_num
  · show 0 ≤ accuracy_score df ∧ accuracy_score df ≤ 1
    unfold accuracy_score
    split_ifs with hpos
    · rw [parsed_accuracy]
      refine sub_div_bounds _ _ hpos ?_
      have hd : negPremiums df + overMillion df ≤ (df.col ("annual_premium")).length := by
        apply countP_disjoint_le
        intro v _
        rintro ⟨h1, h2⟩
        cases v with
        | null => simp at h1
        | str s => simp at h1
        | num q =>
          have hq1 : q < 0 := of_decide_eq_true h1
          have hq2 : 1000000 < q := of_decide_eq_true h2
          linarith
      exact le_trans hd (col_length_le df _)
    · norm_num
  · show -1 ≤ consistency_score df ∧ consistency_score df ≤ 1
    unfold consistency_score
    split_ifs with hpos
    · rw [parsed_consistency]
      refine sub_div_bounds2 _ _ hpos ?_
      have h1 : dupCount df ≤ df.rows.length := dupCountAux_le df.rows []
      have h2 := inconsistentCount_le df
      omega
    · norm_num
  · show -1 ≤ validity_score df ∧ validity_score df ≤ 1
    unfold validity_score
    split_ifs with hpos
    · rw [parsed_validity]
      refine sub_div_bounds2 _ _ hpos ?_
      have h1 : policyIdNulls df ≤ df.nrows :=
        le_trans (List.countP_le_length _) (col_length_le df _)
      have h2 : nonNumericPremiums df ≤ df.nrows :=
        le_trans (List.countP_le_length _) (col_length_le df _)
      omega
    · norm_num

/-- C5: doubling a nonempty dataset of pairwise distinct, cross-field
consistent rows yields a consistency `issue_count` equal to the original row
count `N` (only repetitions beyond the first occurrence are marked) and a
consistency score of `1 − N/(2N) = 1/2 ≤ 0.5`. -/
theorem duplicated_dataset_consistency (ts : String) (df : DataFrame)
    (hne : df.rows ≠ []) (hnd : df.rows.Nodup) (hinc : inconsistentCount df = 0) :
    (check_data_quality defaultThresholds ts
      (DataFrame.mk df.columns (df.rows ++ df.rows))).consistency.issue_count
      = df.rows.length ∧
    (check_data_quality defaultThresholds ts
      (DataFrame.mk df.columns (df.rows ++ df.rows))).consistency.score ≤ 1/2 := by
  have hdup : dupCount (DataFrame.mk df.columns (df.rows ++ df.rows)) = df.rows.length :=
    dupCount_self_append df.rows hnd
  have hic : inconsistentCount (DataFrame.mk df.columns (df.rows ++ df.rows)) = 0 := by
    rw [inconsistentCount_self_append df, hinc]
  have hcount : parsedCount (consistency_issues
      (DataFrame.mk df.columns (df.rows ++ df.rows))) = df.rows.length := by
    rw [parsed_consistency, hdup, hic]
    omega
  constructor
  · exact hcount
  · show consistency_score (DataFrame.mk df.columns (df.rows ++ df.rows)) ≤ 1/2
    unfold consistency_score
    rw [hcount]
    have hn2 : (DataFrame.mk df.columns (df.rows ++ df.rows)).nrows
        = 2 * df.rows.length := by
      show (df.rows ++ df.rows).length = 2 * df.rows.length
      rw [List.length_append]
      omega
    rw [hn2]
    have hNpos : 0 < df.rows.length := List.length_pos.2 hne
    rw [if_pos (by omega)]
    have hq : (0 : ℚ) < (df.rows.length : ℚ) := by exact_mod_cast hNpos
    have hhalf : ((df.rows.length : ℕ) : ℚ) / ((2 * df.rows.length : ℕ) : ℚ) = 1/2 := by
      push_cast
      rw [div_eq_iff (by linarith)]
      ring
    rw [hhalf]
    norm_num

/-- Witness for C5: two distinct one-cell rows, doubled to four rows. -/
theorem duplicated_dataset_consistency_witness :
    (([[Value.str ("A")], [Value.str ("B")]] : List (List Value)) ≠ [] ∧
      ([[Value.str ("A")], [Value.str ("B")]] : List (List Value)).Nodup ∧
      inconsistentCount (DataFrame.mk [("policy_id")]
        [[Value.str ("A")], [Value.str ("B")]]) = 0) ∧
    (check_data_quality defaultThresholds ("t") (DataFrame.mk [("policy_id")]
      ([[Value.str ("A")], [Value.str ("B")]] ++
        [[Value.str ("A")], [Value.str ("B")]]))).consistency.issue_count = 2 ∧
    (check_data_quality defaultThresholds ("t") (DataFrame.mk [("policy_id")]
      ([[Value.str ("A")], [Value.str ("B")]] ++
        [[Value.str ("A")], [Value.str ("B")]]))).consistency.score ≤ 1/2 :=
  ⟨⟨by decide, by decide, by decide⟩,
    (duplicated_dataset_consistency ("t")
      (DataFrame.mk [("policy_id")] [[Value.str ("A")], [Value.str ("B")]])
      (by decide) (by decide) (by decide)).1,
    (duplicated_dataset_consistency ("t")
      (DataFrame.mk [("policy_id")] [[Value.str ("A")], [Value.str ("B")]])
      (by decide) (by decide) (by decide)).2⟩

/-- C7 (counterexample): two scoring calls on the same dataset, rules and
thresholds still return unequal reports, because the report embeds the
wall-clock `datetime.now().isoformat()` timestamp. -/
theorem check_data_quality_timestamp_counterexample :
    (check_data_quality_call monitorInit ("2024-01-01T00:00:00") (DataFrame.mk [] [])).1 ≠
    (check_data_quality_call monitorInit ("2024-01-02T00:00:00") (DataFrame.mk [] [])).1 := by
  intro h
  have ht := congrArg QualityReport.timestamp h
  simp [check_data_quality_call, check_data_quality] at ht

/-- C7 (amended): a scoring call mutates no monitor state (the returned state
is the input state), and the report is a function of the dataset and the
thresholds alone except for its `timestamp` field, which records the wall
clock: two calls on equal inputs agree on every other field. -/
theorem check_data_quality_pure_up_to_timestamp (st : MonitorState) (ts1 ts2 : String)
    (df : DataFrame) :
    (check_data_quality_call st ts1 df).2 = st ∧
    (check_data_quality_call st ts1 df).1 =
      { (check_data_quality_call st ts2 df).1 with timestamp := ts1 } :=
  ⟨rfl, rfl⟩

/-- C9: for every dataset, the issue count each dimension obtains by parsing
`int(issue.split()[0])` back out of its generated message strings equals the
direct sum of the underlying boolean-mask counts. -/
theorem issue_count_parsing_equals_masks (thr : Thresholds) (df : DataFrame) :
    (calculate_accuracy thr df).issue_count = negPremiums df + overMillion df ∧
    (calculate_consistency thr df).issue_count = dupCount df + inconsistentCount df ∧
    (calculate_validity thr df).issue_count = policyIdNulls df + nonNumericPremiums df :=
  ⟨parsed_accuracy df, parsed_consistency df, parsed_validity df⟩

/-- The all-checks-pass gate as a five-way conjunction of statuses. -/
theorem gate_iff (a b c d e : String) :
    (((if a == ("pass") && b == ("pass") && c == ("pass") && d == ("pass") && e == ("pass")
      then ("pass") else ("fail")) : String) = ("pass") ↔
      (a = ("pass") ∧ b = ("pass") ∧ c = ("pass") ∧ d = ("pass") ∧ e = ("pass"))) ∧
    (((if a == ("pass") && b == ("pass") && c == ("pass") && d == ("pass") && e == ("pass")
      then ("pass") else ("fail")) : String) = ("fail") ↔
      ¬(a = ("pass") ∧ b = ("pass") ∧ c = ("pass") ∧ d = ("pass") ∧ e = ("pass"))) := by
  have hiff : (a == ("pass") && b == ("pass") && c == ("pass") && d == ("pass") &&
      e == ("pass")) = true ↔
      (a = ("pass") ∧ b = ("pass") ∧ c = ("pass") ∧ d = ("pass") ∧ e = ("pass")) := by
    simp [Bool.and_eq_true, and_assoc]
  split_ifs with hb
  · rw [hiff] at hb
    exact ⟨by simp [hb], by simp [hb]⟩
  · rw [hiff] at hb
    exact ⟨by simp [hb], by simp [hb]⟩

/-- C4: `validate_data_quality` reports `overall_status = pass` exactly when
all five individual checks report `pass`, and `fail` exactly when at least
one check fails. -/
theorem validate_overall_status_gate (rules : GovRules) (ts : String) (df : DataFrame) :
    ((validate_data_quality rules ts df).overall_status = ("pass") ↔
      ((validate_data_quality rules ts df).required_fields.status = ("pass") ∧
        (validate_data_quality rules ts df).data_types.status = ("pass") ∧
        (validate_data_quality rules ts df).value_ranges.status = ("pass") ∧
        (validate_data_quality rules ts df).duplicates.status = ("pass") ∧
        (validate_data_quality rules ts df).null_values.status = ("pass"))) ∧
    ((validate_data_quality rules ts df).overall_status = ("fail") ↔
      ¬((validate_data_quality rules ts df).required_fields.status = ("pass") ∧
        (validate_data_quality rules ts df).data_types.status = ("pass") ∧
        (validate_data_quality rules ts df).value_ranges.status = ("pass") ∧
        (validate_data_quality rules ts df).duplicates.status = ("pass") ∧
        (validate_data_quality rules ts df).null_values.status = ("pass"))) :=
  gate_iff (requiredFieldsCheck rules df).status (dataTypesCheck rules df).status
    (valueRangesCheck rules df).status (duplicatesCheck df).status
    (nullValuesCheck rules df).status

/-- Entries whose guard fails contribute nothing to a flattened map. -/
theorem flatten_map_filter {α β : Type} (g : α → List β) (p : α → Bool) :
    ∀ l : List α, (∀ x ∈ l, p x = false → g x = []) →
      (l.map g).flatten = ((l.filter p).map g).flatten := by
  intro l
  induction l with
  | nil => intro _; rfl
  | cons a l ih =>
    intro h
    have ht := ih (fun x hx => h x (List.mem_cons_of_mem a hx))
    cases hp : p a with
    | true => simp [List.filter_cons, hp, ht]
    | false =>
      have hga : g a = [] := h a (List.mem_cons_self a l) hp
      simp [List.filter_cons, hp, hga, ht]

/-- Entries whose guard fails contribute nothing to a `filterMap`. -/
theorem filterMap_filter {α β : Type} (g : α → Option β) (p : α → Bool) :
    ∀ l : List α, (∀ x ∈ l, p x = false → g x = none) →
      l.filterMap g = (l.filter p).filterMap g := by
  intro l
  induction l with
  | nil => intro _; rfl
  | cons a l ih =>
    intro h
    have ht := ih (fun x hx => h x (List.mem_cons_of_mem a hx))
    cases hp : p a with
    | true => simp [List.filter_cons, hp, List.filterMap_cons, ht]
    | false =>
      have hga : g a = none := h a (List.mem_cons_self a l) hp
      simp [List.filter_cons, hp, List.filterMap_cons, hga, ht]

/-- A negated boolean equal to `false` means the boolean holds. -/
theorem not_eq_false_imp {b : Bool} (h : (!b) = false) : b = true := by
  cases b
  · simp at h
  · rfl

/-- C6: a dataset missing a declared required field is validated without an
exception; the `required_fields` check fails and lists the missing field,
while the `data_types`, `value_ranges` and `null_values` checks silently skip
the absent field (they equal the checks run with that field dropped from the
rules) and `duplicates` is untouched. -/
theorem missing_required_field_behavior (rules : GovRules) (ts : String) (df : DataFrame)
    (f : String) (hf : f ∈ rules.required_fields) (hmiss : df.hasCol f = false) :
    (validate_data_quality rules ts df).required_fields.status = ("fail") ∧
    f ∈ (validate_data_quality rules ts df).required_fields.missing_fields ∧
    (validate_data_quality rules ts df).data_types = dataTypesCheck (rules.dropField f) df ∧
    (validate_data_quality rules ts df).value_ranges =
      valueRangesCheck (rules.dropField f) df ∧
    (validate_data_quality rules ts df).duplicates = duplicatesCheck df ∧
    (validate_data_quality rules ts df).null_values =
      nullValuesCheck (rules.dropField f) df := by
  have hmem : f ∈ rules.required_fields.filter (fun x => !(df.hasCol x)) :=
    List.mem_filter.2 ⟨hf, by rw [hmiss]; rfl⟩
  have hnenil : rules.required_fields.filter (fun x => !(df.hasCol x)) ≠ [] :=
    List.ne_nil_of_mem hmem
  refine ⟨?_, ?_, ?_, ?_, ?_, ?_⟩
  · show (requiredFieldsCheck rules df).status = ("fail")
    simp only [requiredFieldsCheck]
    rw [if_neg (fun hlen => hnenil (List.length_eq_zero.1 hlen))]
  · show f ∈ (requiredFieldsCheck rules df).missing_fields
    simp only [requiredFieldsCheck]
    exact hmem
  · show dataTypesCheck rules df = dataTypesCheck (rules.dropField f) df
    have hiss : (rules.data_types.map (dataTypeIssues df)).flatten =
        (((rules.dropField f).data_types).map (dataTypeIssues df)).flatten := by
      apply flatten_map_filter
      intro p _ hpf
      have hpf' : p.1 = f := by
        have := not_eq_false_imp hpf
        exact beq_iff_eq.1 this
      unfold dataTypeIssues
      rw [hpf', hmiss]
      rfl
    simp only [dataTypesCheck]
    rw [hiss]
  · show valueRangesCheck rules df = valueRangesCheck (rules.dropField f) df
    have hiss : (rules.value_ranges.map (rangeIssues df)).flatten =
        (((rules.dropField f).value_ranges).map (rangeIssues df)).flatten := by
      apply flatten_map_filter
      intro p _ hpf
      have hpf' : p.1 = f := by
        have := not_eq_false_imp hpf
        exact beq_iff_eq.1 this
      unfold rangeIssues
      rw [hpf', hmiss]
      rfl
    simp only [valueRangesCheck]
    rw [hiss]
  · rfl
  · show nullValuesCheck rules df = nullValuesCheck (rules.dropField f) df
    have hiss : rules.required_fields.filterMap (nullEntry df) =
        ((rules.dropField f).required_fields).filterMap (nullEntry df) := by
      apply filterMap_filter
      intro x _ hxf
      have hxf' : x = f := by
        have := not_eq_false_imp hxf
        exact beq_iff_eq.1 this
      unfold nullEntry
      rw [hxf', hmiss]
      rfl
    simp only [nullValuesCheck]
    rw [hiss]

/-- Witness for C6: the default rules against a dataset that lacks the
declared required field `issue_date`. -/
theorem missing_required_field_behavior_witness :
    ((("issue_date") ∈ defaultRules.required_fields) ∧
      (DataFrame.mk [("policy_id"), ("policy_type")] []).hasCol ("issue_date") = false) ∧
    (validate_data_quality defaultRules ("t")
      (DataFrame.mk [("policy_id"), ("policy_type")] [])).required_fields.status = ("fail") ∧
    ("issue_date") ∈ (validate_data_quality defaultRules ("t")
      (DataFrame.mk [("policy_id"), ("policy_type")] [])).required_fields.missing_fields ∧
    (validate_data_quality defaultRules ("t")
      (DataFrame.mk [("policy_id"), ("policy_type")] [])).data_types =
      dataTypesCheck (defaultRules.dropField ("issue_date"))
        (DataFrame.mk [("policy_id"), ("policy_type")] []) ∧
    (validate_data_quality defaultRules ("t")
      (DataFrame.mk [("policy_id"), ("policy_type")] [])).value_ranges =
      valueRangesCheck (defaultRules.dropField ("issue_date"))
        (DataFrame.mk [("policy_id"), ("policy_type")] []) ∧
    (validate_data_quality defaultRules ("t")
      (DataFrame.mk [("policy_id"), ("policy_type")] [])).duplicates =
      duplicatesCheck (DataFrame.mk [("policy_id"), ("policy_type")] []) ∧
    (validate_data_quality defaultRules ("t")
      (DataFrame.mk [("policy_id"), ("policy_type")] [])).null_values =
      nullValuesCheck (defaultRules.dropField ("issue_date"))
        (DataFrame.mk [("policy_id"), ("policy_type")] []) :=
  ⟨⟨by decide, by decide⟩,
    missing_required_field_behavior defaultRules ("t")
      (DataFrame.mk [("policy_id"), ("policy_type")] []) ("issue_date")
      (by decide) (by decide)⟩
